import Mathlib

/-!
Shallow embedding of the Distance-Sampler of `splice-react-hooks`
(`src/lib/useGoogleMapsActions/index.js`, `_getPositionsEveryProvidedMeters`)
together with the environment checks of `src/lib/utils`
(`checkForGoogleMaps`, `checkForGeometryLib`).

Geographic points are pairs of rationals; the external Google Maps
spherical-geometry operations (`computeDistanceBetween`, `computeHeading`,
`computeOffsetOrigin`) are an abstract, possibly failing, service the
sampler consumes.  JavaScript numbers are modelled as rationals and
`Math.round` as `fun x => Int.floor (x + 1/2)` (JS rounds half toward
positive infinity).  A call either throws synchronously (`JsOutcome.thrown`)
or returns a promise that resolves or rejects (`JsOutcome.promise`),
mirroring the source's `throw` before `new Promise` and `reject` inside it.
-/

namespace SpliceReactHooks

/-- A latitude/longitude pair, as serialised by `JSON.stringify` on a
Google Maps `LatLng` (coordinate equality is structural equality). -/
structure LatLng where
  lat : ℚ
  lng : ℚ
deriving DecidableEq, Repr

/-- The slice of `window.google.maps.geometry.spherical` the sampler
destructures.  Each operation may throw, which the embedding renders as
`Except.error`. -/
structure SphericalGeometry where
  computeDistanceBetween : LatLng → LatLng → Except String ℚ
  computeHeading : LatLng → LatLng → Except String ℚ
  computeOffsetOrigin : LatLng → ℚ → ℚ → Except String LatLng

/-- The ambient browser environment the utils functions inspect:
whether `window.google` exists, whether the geometry library was loaded,
and the spherical operations themselves. -/
structure GoogleMapsEnv where
  hasGoogle : Bool
  hasGeometry : Bool
  spherical : SphericalGeometry

/-- Result of calling a promise-returning JS function: either a synchronous
`throw` before any promise exists, or a promise that resolves (`ok`) or
rejects (`error`). -/
inductive JsOutcome (α : Type) where
  | thrown (msg : String)
  | promise (result : Except String α)
deriving Repr

instance {α : Type} [DecidableEq α] : DecidableEq (Except String α) := fun a b =>
  match a, b with
  | .error e₁, .error e₂ =>
    if h : e₁ = e₂ then .isTrue (by rw [h]) else .isFalse (by intro hc; cases hc; exact h rfl)
  | .error _, .ok _ => .isFalse (by intro hc; cases hc)
  | .ok _, .error _ => .isFalse (by intro hc; cases hc)
  | .ok a₁, .ok a₂ =>
    if h : a₁ = a₂ then .isTrue (by rw [h]) else .isFalse (by intro hc; cases hc; exact h rfl)

instance {α : Type} [DecidableEq α] : DecidableEq (JsOutcome α) := fun a b =>
  match a, b with
  | .thrown m₁, .thrown m₂ =>
    if h : m₁ = m₂ then .isTrue (by rw [h]) else .isFalse (by intro hc; cases hc; exact h rfl)
  | .thrown _, .promise _ => .isFalse (by intro hc; cases hc)
  | .promise _, .thrown _ => .isFalse (by intro hc; cases hc)
  | .promise r₁, .promise r₂ =>
    if h : r₁ = r₂ then .isTrue (by rw [h]) else .isFalse (by intro hc; cases hc; exact h rfl)

/-- JavaScript `Math.round`: round to the nearest integer, halves toward
positive infinity. -/
def jsRound (x : ℚ) : ℤ := (x + 1 / 2).floor

/-- `checkForGoogleMaps` from `src/lib/utils`. -/
def checkForGoogleMaps (env : GoogleMapsEnv) : Except String Unit :=
  if env.hasGoogle then .ok ()
  else .error "This method uses Google maps API and it is not loaded."

/-- `checkForGeometryLib` from `src/lib/utils`: first requires Google Maps,
then the geometry library. -/
def checkForGeometryLib (env : GoogleMapsEnv) : Except String Unit :=
  match checkForGoogleMaps env with
  | .error e => .error e
  | .ok _ =>
    if env.hasGeometry then .ok ()
    else .error "The library geometry must be included in your Google maps script."

/-- Mutable state of the `for (const latLng of latLngs)` loop body:
`prev`, `acc`, and the `positions` array built so far. -/
structure SamplerState where
  prev : LatLng
  acc : ℚ
  positions : List LatLng
deriving DecidableEq, Repr

/-- One iteration of the loop body: add `computeDistanceBetween(prev, latLng)`
to `acc`; if `Math.round(acc) < meters` just advance `prev`, otherwise emit
`computeOffsetOrigin(latLng, acc - meters, computeHeading(prev, latLng))`,
reset `acc` to 0 and set `prev` to the adjusted position.  Any throw from a
geometry operation aborts the loop (caught by the surrounding `try`). -/
def sampleStep (G : SphericalGeometry) (meters : ℚ) (s : SamplerState) (p : LatLng) :
    Except String SamplerState :=
  match G.computeDistanceBetween s.prev p with
  | .error e => .error e
  | .ok d =>
    let acc := s.acc + d
    if (jsRound acc : ℚ) < meters then
      .ok { s with prev := p, acc := acc }
    else
      match G.computeHeading s.prev p with
      | .error e => .error e
      | .ok heading =>
        match G.computeOffsetOrigin p (acc - meters) heading with
        | .error e => .error e
        | .ok adjusted =>
          .ok { prev := adjusted, acc := 0, positions := s.positions ++ [adjusted] }

/-- The whole `for (const latLng of latLngs)` loop. -/
def runSampleLoop (G : SphericalGeometry) (meters : ℚ) :
    SamplerState → List LatLng → Except String SamplerState
  | s, [] => .ok s
  | s, p :: rest =>
    match sampleStep G meters s p with
    | .error e => .error e
    | .ok s' => runSampleLoop G meters s' rest

/-- `_getPositionsEveryProvidedMeters(latLngs, meters = 500)`:
`checkForGeometryLib()` and the two input guards throw synchronously; the
returned promise resolves with `[first]` (plus loop emissions when
`latLngs.length > 2`, the loop iterating over every element including the
first) or rejects with the first geometry error. -/
def getPositionsEveryProvidedMeters (env : GoogleMapsEnv) (latLngs : List LatLng)
    (meters : ℚ := 500) : JsOutcome (List LatLng) :=
  match checkForGeometryLib env with
  | .error e => .thrown e
  | .ok _ =>
    if latLngs.length ≤ 1 then
      .thrown "You must provide at least two latLng objects."
    else if latLngs.length = 2 ∧ latLngs[0]? = latLngs[1]? then
      .thrown "The two objects must be different."
    else
      match latLngs with
      | [] => .promise (.ok [])
      | first :: rest =>
        if 2 < (first :: rest).length then
          .promise ((runSampleLoop env.spherical meters
              { prev := first, acc := 0, positions := [first] } (first :: rest)).map
            SamplerState.positions)
        else
          .promise (.ok [first])

/-- Deterministic straight-line geometry used for concrete evaluations:
latitude is the signed distance along a line, `computeOffsetOrigin q d h`
returns the point `d` before `q` on that line. -/
def lineG : SphericalGeometry where
  computeDistanceBetween a b := .ok (if a.lat ≤ b.lat then b.lat - a.lat else a.lat - b.lat)
  computeHeading _ _ := .ok 0
  computeOffsetOrigin q dq _ := .ok ⟨q.lat - dq, q.lng⟩

/-- Environment with Google Maps and the geometry library loaded. -/
def lineEnv : GoogleMapsEnv := ⟨true, true, lineG⟩

/-- Geometry whose every operation throws. -/
def failG : SphericalGeometry where
  computeDistanceBetween _ _ := .error "geometry failure"
  computeHeading _ _ := .error "geometry failure"
  computeOffsetOrigin _ _ _ := .error "geometry failure"

/-- Environment whose geometry operations all throw. -/
def failEnv : GoogleMapsEnv := ⟨true, true, failG⟩

/-- Environment without `window.google`. -/
def noGoogleEnv : GoogleMapsEnv := ⟨false, true, lineG⟩

/-- Environment with `window.google` but without the geometry library. -/
def noGeomEnv : GoogleMapsEnv := ⟨true, false, lineG⟩

/-! ### Basic facts about `jsRound` -/

theorem jsRound_eq_floor (x : ℚ) : jsRound x = ⌊x + 1 / 2⌋ := by
  rw [jsRound, Rat.floor_def', ← Rat.floor_def]

theorem jsRound_of_bounds (x : ℚ) (n : ℤ) (h1 : (n : ℚ) ≤ x + 1 / 2)
    (h2 : x + 1 / 2 < n + 1) : jsRound x = n := by
  rw [jsRound_eq_floor]
  exact Int.floor_eq_iff.mpr ⟨h1, h2⟩

theorem jsRound_mono {x y : ℚ} (h : x ≤ y) : jsRound x ≤ jsRound y := by
  rw [jsRound_eq_floor, jsRound_eq_floor]
  exact Int.floor_le_floor (by linarith)

/-- With an integer spacing `m`, `Math.round(x) < m` holds exactly on
`x < m - 1/2`: the comparison sees the value rounded to the nearest meter. -/
theorem jsRound_lt_int (x : ℚ) (m : ℤ) : ((jsRound x : ℤ) : ℚ) < (m : ℚ) ↔ x < (m : ℚ) - 1 / 2 := by
  rw [jsRound_eq_floor]
  constructor
  · intro h
    have h' : ⌊x + 1 / 2⌋ < m := by exact_mod_cast h
    have := Int.floor_lt.mp h'
    linarith
  · intro h
    have h' : ⌊x + 1 / 2⌋ < m := Int.floor_lt.mpr (by linarith)
    exact_mod_cast h'

/-! ### Step and loop evaluation lemmas -/

theorem sampleStep_skip (G : SphericalGeometry) (meters : ℚ) (s : SamplerState) (p : LatLng)
    (d : ℚ) (hd : G.computeDistanceBetween s.prev p = .ok d)
    (hlt : ((jsRound (s.acc + d) : ℤ) : ℚ) < meters) :
    sampleStep G meters s p = .ok { prev := p, acc := s.acc + d, positions := s.positions } := by
  simp only [sampleStep, hd, if_pos hlt]

theorem sampleStep_emit (G : SphericalGeometry) (meters : ℚ) (s : SamplerState) (p : LatLng)
    (d heading : ℚ) (adjusted : LatLng)
    (hd : G.computeDistanceBetween s.prev p = .ok d)
    (hge : meters ≤ ((jsRound (s.acc + d) : ℤ) : ℚ))
    (hh : G.computeHeading s.prev p = .ok heading)
    (ho : G.computeOffsetOrigin p (s.acc + d - meters) heading = .ok adjusted) :
    sampleStep G meters s p =
      .ok { prev := adjusted, acc := 0, positions := s.positions ++ [adjusted] } := by
  simp only [sampleStep, hd, if_neg (not_lt.mpr hge), hh, ho]

theorem runSampleLoop_nil (G : SphericalGeometry) (meters : ℚ) (s : SamplerState) :
    runSampleLoop G meters s [] = .ok s := rfl

theorem runSampleLoop_cons_ok (G : SphericalGeometry) (meters : ℚ) (s s' : SamplerState)
    (p : LatLng) (rest : List LatLng) (h : sampleStep G meters s p = .ok s') :
    runSampleLoop G meters s (p :: rest) = runSampleLoop G meters s' rest := by
  simp only [runSampleLoop, h]

theorem runSampleLoop_cons_error (G : SphericalGeometry) (meters : ℚ) (s : SamplerState)
    (p : LatLng) (rest : List LatLng) (e : String) (h : sampleStep G meters s p = .error e) :
    runSampleLoop G meters s (p :: rest) = .error e := by
  simp only [runSampleLoop, h]

/-- A successful step only ever appends to `positions`. -/
theorem sampleStep_positions_extend (G : SphericalGeometry) (meters : ℚ) (s s' : SamplerState)
    (p : LatLng) (h : sampleStep G meters s p = .ok s') :
    ∃ t : List LatLng, s'.positions = s.positions ++ t := by
  simp only [sampleStep] at h
  split at h
  · cases h
  · split at h
    · cases h
      exact ⟨[], by simp⟩
    · split at h
      · cases h
      · split at h
        · cases h
        · cases h
          exact ⟨[_], rfl⟩

/-- A successful step either leaves `positions` unchanged or appends one point
obtained from `computeOffsetOrigin` at the current point `p`. -/
theorem sampleStep_positions_synthetic (G : SphericalGeometry) (meters : ℚ)
    (s s' : SamplerState) (p : LatLng) (h : sampleStep G meters s p = .ok s') :
    s'.positions = s.positions ∨
      ∃ (dq hq : ℚ) (adj : LatLng), G.computeOffsetOrigin p dq hq = .ok adj ∧
        s'.positions = s.positions ++ [adj] := by
  simp only [sampleStep] at h
  split at h
  · cases h
  · split at h
    · cases h
      exact .inl rfl
    · split at h
      · cases h
      · split at h
        · cases h
        · cases h
          exact .inr ⟨_, _, _, by solve_by_elim, rfl⟩

/-- The loop only ever appends to `positions`. -/
theorem runSampleLoop_positions_extend (G : SphericalGeometry) (meters : ℚ) :
    ∀ (l : List LatLng) (s s' : SamplerState), runSampleLoop G meters s l = .ok s' →
      ∃ t : List LatLng, s'.positions = s.positions ++ t := by
  intro l
  induction l with
  | nil =>
    intro s s' h
    rw [runSampleLoop_nil] at h
    cases h
    exact ⟨[], by simp⟩
  | cons p rest ih =>
    intro s s' h
    cases hstep : sampleStep G meters s p with
    | error e => rw [runSampleLoop_cons_error _ _ _ _ _ _ hstep] at h; cases h
    | ok s1 =>
      rw [runSampleLoop_cons_ok _ _ _ _ _ _ hstep] at h
      obtain ⟨t1, ht1⟩ := sampleStep_positions_extend _ _ _ _ _ hstep
      obtain ⟨t2, ht2⟩ := ih s1 s' h
      exact ⟨t1 ++ t2, by rw [ht2, ht1, List.append_assoc]⟩

/-- Every point the loop adds to `positions` is a `computeOffsetOrigin` result
at one of the iterated points. -/
theorem runSampleLoop_positions_synthetic (G : SphericalGeometry) (meters : ℚ) :
    ∀ (l : List LatLng) (s s' : SamplerState), runSampleLoop G meters s l = .ok s' →
      ∀ x ∈ s'.positions, x ∈ s.positions ∨
        ∃ (q : LatLng) (dq hq : ℚ), q ∈ l ∧ G.computeOffsetOrigin q dq hq = .ok x := by
  intro l
  induction l with
  | nil =>
    intro s s' h x hx
    rw [runSampleLoop_nil] at h
    cases h
    exact .inl hx
  | cons p rest ih =>
    intro s s' h x hx
    cases hstep : sampleStep G meters s p with
    | error e => rw [runSampleLoop_cons_error _ _ _ _ _ _ hstep] at h; cases h
    | ok s1 =>
      rw [runSampleLoop_cons_ok _ _ _ _ _ _ hstep] at h
      rcases ih s1 s' h x hx with hx1 | ⟨q, dq, hq, hql, hqe⟩
      · rcases sampleStep_positions_synthetic _ _ _ _ _ hstep with heq | ⟨dq, hq, adj, hadj, heq⟩
        · exact .inl (heq ▸ hx1)
        · rw [heq] at hx1
          rcases List.mem_append.mp hx1 with hx2 | hx2
          · exact .inl hx2
          · rcases List.mem_singleton.mp hx2 with rfl
            exact .inr ⟨p, dq, hq, List.mem_cons_self p rest, hadj⟩
      · exact .inr ⟨q, dq, hq, List.mem_cons_of_mem p hql, hqe⟩

/-- While the rounded accumulated distance stays below the spacing, the loop
emits nothing: starting from accumulator `a`, after consuming a chain of
points each `d` apart it ends with accumulator `a + length * d` and the
`positions` array untouched. -/
theorem runSampleLoop_uniform_below (G : SphericalGeometry) (meters d : ℚ) :
    ∀ (l : List LatLng) (prev : LatLng) (a : ℚ) (ps : List LatLng),
      List.Chain (fun x y => G.computeDistanceBetween x y = .ok d) prev l →
      (∀ k : ℕ, k ≤ l.length → ((jsRound (a + k * d) : ℤ) : ℚ) < meters) →
      ∃ q, runSampleLoop G meters ⟨prev, a, ps⟩ l = .ok ⟨q, a + l.length * d, ps⟩ := by
  intro l
  induction l with
  | nil =>
    intro prev a ps _ _
    refine ⟨prev, ?_⟩
    rw [runSampleLoop_nil]
    norm_num
  | cons x xs ih =>
    intro prev a ps hchain hbelow
    cases hchain with
    | cons hpx hchain =>
      have hstep : sampleStep G meters ⟨prev, a, ps⟩ x = .ok ⟨x, a + d, ps⟩ := by
        refine sampleStep_skip _ _ _ _ d hpx ?_
        have h1 := hbelow 1 (by simp)
        norm_num at h1
        norm_num
        exact h1
      rw [runSampleLoop_cons_ok _ _ _ _ _ _ hstep]
      have hb : ∀ k : ℕ, k ≤ xs.length → ((jsRound (a + d + k * d) : ℤ) : ℚ) < meters := by
        intro k hk
        have he : a + d + (k : ℚ) * d = a + ((k + 1 : ℕ) : ℚ) * d := by
          push_cast
          ring
        rw [he]
        exact hbelow (k + 1) (by simpa using Nat.succ_le_succ hk)
      obtain ⟨q, hq⟩ := ih x (a + d) ps hchain hb
      refine ⟨q, ?_⟩
      have hacc : a + d + (xs.length : ℚ) * d = a + ((x :: xs).length : ℚ) * d := by
        push_cast [List.length_cons]
        ring
      rw [hacc] at hq
      exact hq

/-- Unfolding of `_getPositionsEveryProvidedMeters` on a valid input of more
than two points: the promise resolves (or rejects) with the loop's result. -/
theorem getPositions_long (env : GoogleMapsEnv) (first : LatLng) (rest : List LatLng)
    (meters : ℚ) (henv : checkForGeometryLib env = .ok ())
    (hlen : 2 < (first :: rest).length) :
    getPositionsEveryProvidedMeters env (first :: rest) meters =
      .promise ((runSampleLoop env.spherical meters
        { prev := first, acc := 0, positions := [first] } (first :: rest)).map
        SamplerState.positions) := by
  have h1 : ¬((first :: rest).length ≤ 1) := by omega
  have h2 : ¬((first :: rest).length = 2 ∧
      (first :: rest)[0]? = (first :: rest)[1]?) := by
    rintro ⟨hl, _⟩
    omega
  simp only [getPositionsEveryProvidedMeters, henv, if_neg h1, if_neg h2, if_pos hlen]

/-- Successful loop runs append only `computeOffsetOrigin` results: the final
`positions` array is the initial one followed by points each returned by the
offset operation at one of the iterated points. -/
theorem runSampleLoop_positions_spec (G : SphericalGeometry) (meters : ℚ) :
    ∀ (l : List LatLng) (s s' : SamplerState), runSampleLoop G meters s l = .ok s' →
      ∃ t : List LatLng, s'.positions = s.positions ++ t ∧
        ∀ x ∈ t, ∃ (q : LatLng) (dq hq : ℚ), q ∈ l ∧
          G.computeOffsetOrigin q dq hq = .ok x := by
  intro l
  induction l with
  | nil =>
    intro s s' h
    rw [runSampleLoop_nil] at h
    cases h
    exact ⟨[], by simp, by simp⟩
  | cons p rest ih =>
    intro s s' h
    cases hstep : sampleStep G meters s p with
    | error e => rw [runSampleLoop_cons_error _ _ _ _ _ _ hstep] at h; cases h
    | ok s1 =>
      rw [runSampleLoop_cons_ok _ _ _ _ _ _ hstep] at h
      obtain ⟨t2, ht2, hsyn2⟩ := ih s1 s' h
      rcases sampleStep_positions_synthetic _ _ _ _ _ hstep with heq | ⟨dq, hq, adj, hadj, heq⟩
      · refine ⟨t2, by rw [ht2, heq], ?_⟩
        intro x hx
        obtain ⟨q, dq, hq, hql, hqe⟩ := hsyn2 x hx
        exact ⟨q, dq, hq, List.mem_cons_of_mem p hql, hqe⟩
      · refine ⟨adj :: t2, by rw [ht2, heq, List.append_assoc]; rfl, ?_⟩
        intro x hx
        rcases List.mem_cons.mp hx with rfl | hx2
        · exact ⟨p, dq, hq, List.mem_cons_self p rest, hadj⟩
        · obtain ⟨q, dq', hq', hql, hqe⟩ := hsyn2 x hx2
          exact ⟨q, dq', hq', List.mem_cons_of_mem p hql, hqe⟩

/-- Concrete evaluation used below: three collinear points 400 meters apart
with spacing 500 — the accumulator reaches 800 at the third point, so a
synthetic point at 500 is emitted and the output has two elements. -/
theorem sample_three_collinear_eval :
    getPositionsEveryProvidedMeters lineEnv [⟨0, 0⟩, ⟨400, 0⟩, ⟨800, 0⟩] 500 =
      .promise (.ok [⟨0, 0⟩, ⟨500, 0⟩]) := by
  have hs1 : sampleStep lineG 500 ⟨⟨0, 0⟩, 0, [⟨0, 0⟩]⟩ ⟨0, 0⟩ =
      .ok ⟨⟨0, 0⟩, 0 + 0, [⟨0, 0⟩]⟩ := by
    refine sampleStep_skip _ _ _ _ 0 (by norm_num [lineG]) ?_
    rw [jsRound_of_bounds (0 + 0) 0 (by norm_num) (by norm_num)]
    norm_num
  have hs2 : sampleStep lineG 500 ⟨⟨0, 0⟩, 0 + 0, [⟨0, 0⟩]⟩ ⟨400, 0⟩ =
      .ok ⟨⟨400, 0⟩, 0 + 0 + 400, [⟨0, 0⟩]⟩ := by
    refine sampleStep_skip _ _ _ _ 400 (by norm_num [lineG]) ?_
    rw [jsRound_of_bounds (0 + 0 + 400) 400 (by norm_num) (by norm_num)]
    norm_num
  have hs3 : sampleStep lineG 500 ⟨⟨400, 0⟩, 0 + 0 + 400, [⟨0, 0⟩]⟩ ⟨800, 0⟩ =
      .ok ⟨⟨500, 0⟩, 0, [⟨0, 0⟩] ++ [⟨500, 0⟩]⟩ := by
    have := sampleStep_emit lineG 500 ⟨⟨400, 0⟩, 0 + 0 + 400, [⟨0, 0⟩]⟩ ⟨800, 0⟩ 400 0 ⟨500, 0⟩
      (by norm_num [lineG]) ?_ (by norm_num [lineG]) ?_
    · exact this
    · rw [jsRound_of_bounds (0 + 0 + 400 + 400) 800 (by norm_num) (by norm_num)]
      norm_num
    · show Except.ok ⟨(800 : ℚ) - (0 + 0 + 400 + 400 - 500), 0⟩ = Except.ok (⟨500, 0⟩ : LatLng)
      norm_num
  show JsOutcome.promise
      ((runSampleLoop lineG 500 ⟨⟨0, 0⟩, 0, [⟨0, 0⟩]⟩
        [⟨0, 0⟩, ⟨400, 0⟩, ⟨800, 0⟩]).map SamplerState.positions) =
    .promise (.ok [⟨0, 0⟩, ⟨500, 0⟩])
  rw [runSampleLoop_cons_ok _ _ _ _ _ _ hs1, runSampleLoop_cons_ok _ _ _ _ _ _ hs2,
    runSampleLoop_cons_ok _ _ _ _ _ _ hs3, runSampleLoop_nil]
  rfl

/-! ### Claim theorems -/

/-- C1 (counterexample): the claim "for every valid path of length ≥ 3 whose
consecutive points are each exactly `d < spacing` apart, `sample` returns a
single-element sequence, regardless of how many points the path has" is false:
with three collinear points each 400 meters apart and spacing 500, the
accumulator (never reset while below the threshold) reaches 800 at the third
point and a second, synthetic point is emitted. -/
theorem sample_uniform_spacing_counterexample :
    lineG.computeDistanceBetween ⟨0, 0⟩ ⟨400, 0⟩ = .ok 400 ∧
    lineG.computeDistanceBetween ⟨400, 0⟩ ⟨800, 0⟩ = .ok 400 ∧
    (∀ q : LatLng, lineG.computeDistanceBetween q q = .ok 0) ∧
    (400 : ℚ) < 500 ∧
    getPositionsEveryProvidedMeters lineEnv [⟨0, 0⟩, ⟨400, 0⟩, ⟨800, 0⟩] 500 ≠
      .promise (.ok [⟨0, 0⟩]) := by
  refine ⟨by norm_num [lineG], by norm_num [lineG], fun q => by simp [lineG], by norm_num, ?_⟩
  rw [sample_three_collinear_eval]
  simp

/-- C1 (amended): for every valid path of length ≥ 3 whose consecutive points
are each exactly `d ≥ 0` meters apart (self-distance zero), `sample` returns
the single-element sequence `[path[0]]` provided the rounded TOTAL accumulated
distance `(length - 1) * d` stays below `spacing`; with enough points the
accumulated distance reaches the spacing and a synthetic point is emitted. -/
theorem sample_uniform_spacing_below_total (env : GoogleMapsEnv) (first : LatLng)
    (rest : List LatLng) (d meters : ℚ)
    (henv : checkForGeometryLib env = .ok ())
    (hlen : 3 ≤ (first :: rest).length)
    (hself : ∀ q, env.spherical.computeDistanceBetween q q = .ok 0)
    (hchain : List.Chain (fun a b => env.spherical.computeDistanceBetween a b = .ok d)
      first rest)
    (hd0 : 0 ≤ d)
    (hbelow : ((jsRound ((rest.length : ℚ) * d) : ℤ) : ℚ) < meters) :
    getPositionsEveryProvidedMeters env (first :: rest) meters = .promise (.ok [first]) := by
  rw [getPositions_long env first rest meters henv (by omega)]
  have hmax : ∀ x : ℚ, 0 ≤ x → x ≤ (rest.length : ℚ) * d →
      ((jsRound x : ℤ) : ℚ) < meters := by
    intro x _ hx2
    have hm := jsRound_mono hx2
    calc ((jsRound x : ℤ) : ℚ) ≤ ((jsRound ((rest.length : ℚ) * d) : ℤ) : ℚ) := by
          exact_mod_cast hm
      _ < meters := hbelow
  have hstep : sampleStep env.spherical meters ⟨first, 0, [first]⟩ first =
      .ok ⟨first, 0 + 0, [first]⟩ := by
    refine sampleStep_skip _ _ _ _ 0 (hself first) ?_
    have hnn : (0 : ℚ) ≤ (rest.length : ℚ) * d := mul_nonneg (by positivity) hd0
    exact hmax _ (by norm_num) (by norm_num; linarith)
  rw [runSampleLoop_cons_ok _ _ _ _ _ _ hstep]
  have hb : ∀ k : ℕ, k ≤ rest.length →
      ((jsRound (0 + 0 + k * d) : ℤ) : ℚ) < meters := by
    intro k hk
    have hknn : (0 : ℚ) ≤ (k : ℚ) * d := mul_nonneg (by positivity) hd0
    refine hmax _ (by linarith) ?_
    have hkq : (k : ℚ) ≤ (rest.length : ℚ) := by exact_mod_cast hk
    have := mul_le_mul_of_nonneg_right hkq hd0
    linarith
  obtain ⟨q, hq⟩ := runSampleLoop_uniform_below env.spherical meters d rest first (0 + 0)
    [first] hchain hb
  rw [hq]
  rfl

/-- C1 (witness for the amended claim): three points 100 meters apart with
spacing 500: the rounded total 200 stays below 500 and the output is the
first point alone. -/
theorem sample_uniform_spacing_below_total_witness :
    getPositionsEveryProvidedMeters lineEnv [⟨0, 0⟩, ⟨100, 0⟩, ⟨200, 0⟩] 500 =
      .promise (.ok [⟨0, 0⟩]) :=
  sample_uniform_spacing_below_total lineEnv ⟨0, 0⟩ [⟨100, 0⟩, ⟨200, 0⟩] 100 500 rfl
    (by norm_num)
    (fun q => by simp [lineEnv, lineG])
    (List.Chain.cons (by norm_num [lineEnv, lineG])
      (List.Chain.cons (by norm_num [lineEnv, lineG]) List.Chain.nil))
    (by norm_num)
    (by norm_num [jsRound_of_bounds (200 : ℚ) 200 (by norm_num) (by norm_num)])

/-- C2: in the emit branch (`Math.round(acc) >= meters` after adding the
current segment), the point appended to the output is exactly
`computeOffsetOrigin(p, acc - meters, computeHeading(prev, p))` — the offset
is computed from the current point `p`, not from `prev`, with the unrounded
overshoot `acc - meters` and the heading from `prev` to `p`. -/
theorem sample_emit_uses_current_point (G : SphericalGeometry) (meters : ℚ)
    (s : SamplerState) (p : LatLng) (d heading : ℚ) (adjusted : LatLng)
    (hd : G.computeDistanceBetween s.prev p = .ok d)
    (hge : meters ≤ ((jsRound (s.acc + d) : ℤ) : ℚ))
    (hh : G.computeHeading s.prev p = .ok heading)
    (ho : G.computeOffsetOrigin p (s.acc + d - meters) heading = .ok adjusted) :
    sampleStep G meters s p =
      .ok { prev := adjusted, acc := 0, positions := s.positions ++ [adjusted] } :=
  sampleStep_emit G meters s p d heading adjusted hd hge hh ho

/-- C2 (witness): from `⟨0,0⟩` a single 600-meter segment with spacing 500
emits the offset-origin of the current point with overshoot 100. -/
theorem sample_emit_uses_current_point_witness :
    sampleStep lineG 500 ⟨⟨0, 0⟩, 0, [⟨0, 0⟩]⟩ ⟨600, 0⟩ =
      .ok { prev := ⟨500, 0⟩, acc := 0, positions := [⟨0, 0⟩] ++ [⟨500, 0⟩] } :=
  sample_emit_uses_current_point lineG 500 ⟨⟨0, 0⟩, 0, [⟨0, 0⟩]⟩ ⟨600, 0⟩ 600 0 ⟨500, 0⟩
    (by norm_num [lineG])
    (by norm_num [jsRound_of_bounds (600 : ℚ) 600 (by norm_num) (by norm_num)])
    (by norm_num [lineG])
    (by norm_num [lineG])

/-- C3: with the geometry library available, inputs of fewer than two points
throw the at-least-two error, a two-element input of identical points throws
the must-differ error, and any input of three or more points passes
validation and returns a promise — the identical-pair check never applies to
longer paths, even ones with repeated points. -/
theorem sample_input_validation (env : GoogleMapsEnv) (latLngs : List LatLng) (meters : ℚ)
    (henv : checkForGeometryLib env = .ok ()) :
    (latLngs.length ≤ 1 →
      getPositionsEveryProvidedMeters env latLngs meters =
        .thrown "You must provide at least two latLng objects.") ∧
    (∀ p : LatLng, latLngs = [p, p] →
      getPositionsEveryProvidedMeters env latLngs meters =
        .thrown "The two objects must be different.") ∧
    (3 ≤ latLngs.length →
      ∃ r, getPositionsEveryProvidedMeters env latLngs meters = .promise r) := by
  refine ⟨?_, ?_, ?_⟩
  · intro h
    simp only [getPositionsEveryProvidedMeters, henv, if_pos h]
  · rintro p rfl
    simp [getPositionsEveryProvidedMeters, henv]
  · intro h
    rcases latLngs with _ | ⟨p, _ | ⟨q, _ | ⟨r, rest⟩⟩⟩ <;> simp at h
    exact ⟨_, getPositions_long env p (q :: r :: rest) meters henv (by simp)⟩

/-- C3 (witness): one point throws; two identical points throw; the
three-point path `[p, q, p]` with `p` repeated passes validation. -/
theorem sample_input_validation_witness :
    getPositionsEveryProvidedMeters lineEnv [⟨1, 2⟩] 500 =
      .thrown "You must provide at least two latLng objects." ∧
    getPositionsEveryProvidedMeters lineEnv [⟨1, 2⟩, ⟨1, 2⟩] 500 =
      .thrown "The two objects must be different." ∧
    ∃ r, getPositionsEveryProvidedMeters lineEnv [⟨1, 2⟩, ⟨3, 4⟩, ⟨1, 2⟩] 500 =
      .promise r :=
  ⟨(sample_input_validation lineEnv [⟨1, 2⟩] 500 rfl).1 (by norm_num),
   (sample_input_validation lineEnv [⟨1, 2⟩, ⟨1, 2⟩] 500 rfl).2.1 ⟨1, 2⟩ rfl,
   (sample_input_validation lineEnv [⟨1, 2⟩, ⟨3, 4⟩, ⟨1, 2⟩] 500 rfl).2.2 (by norm_num)⟩

/-- C4: for exactly two distinct points the sampler returns only the first
point, whatever the spacing and whatever the distance between the two points:
the loop (and so the synthetic-offset logic) only runs when the input has
strictly more than two points, and no geometry operation is even consulted. -/
theorem sample_two_point_no_adjust (env : GoogleMapsEnv) (p q : LatLng) (meters : ℚ)
    (henv : checkForGeometryLib env = .ok ()) (hne : p ≠ q) :
    getPositionsEveryProvidedMeters env [p, q] meters = .promise (.ok [p]) := by
  have h1 : ¬(([p, q] : List LatLng).length ≤ 1) := by simp
  have h2 : ¬(([p, q] : List LatLng).length = 2 ∧
      ([p, q] : List LatLng)[0]? = ([p, q] : List LatLng)[1]?) := by
    simp [hne]
  simp only [getPositionsEveryProvidedMeters, henv, if_neg h1, if_neg h2]
  norm_num

/-- C4 (witness): two points 900 meters apart with spacing 500 still produce
only the first point — no adjustment despite the distance exceeding the
spacing. -/
theorem sample_two_point_no_adjust_witness :
    getPositionsEveryProvidedMeters lineEnv [⟨0, 0⟩, ⟨900, 0⟩] 500 =
      .promise (.ok [⟨0, 0⟩]) ∧
    lineG.computeDistanceBetween ⟨0, 0⟩ ⟨900, 0⟩ = .ok 900 ∧ (500 : ℚ) ≤ 900 :=
  ⟨sample_two_point_no_adjust lineEnv ⟨0, 0⟩ ⟨900, 0⟩ 500 rfl (by decide),
   by norm_num [lineG], by norm_num⟩

/-- C5: with an integer spacing `m`, the branch decision rounds the
accumulated distance to the nearest meter — the emit branch is taken exactly
when `acc ≥ m - 1/2` — while the accumulator stored in the skip branch and
the overshoot `acc - m` handed to the offset computation keep their unrounded
values.  In particular an accumulated 499.6 with spacing 500 emits while
499.4 does not. -/
theorem sample_rounded_comparison_unrounded_values (G : SphericalGeometry) (m : ℤ)
    (s : SamplerState) (p : LatLng) (d : ℚ)
    (hd : G.computeDistanceBetween s.prev p = .ok d) :
    (s.acc + d < (m : ℚ) - 1 / 2 →
      sampleStep G (m : ℚ) s p =
        .ok { prev := p, acc := s.acc + d, positions := s.positions }) ∧
    ((m : ℚ) - 1 / 2 ≤ s.acc + d →
      ∀ (heading : ℚ) (adjusted : LatLng), G.computeHeading s.prev p = .ok heading →
        G.computeOffsetOrigin p (s.acc + d - (m : ℚ)) heading = .ok adjusted →
        sampleStep G (m : ℚ) s p =
          .ok { prev := adjusted, acc := 0, positions := s.positions ++ [adjusted] }) := by
  constructor
  · intro h
    exact sampleStep_skip G _ s p d hd ((jsRound_lt_int _ m).mpr h)
  · intro h heading adjusted hh ho
    refine sampleStep_emit G _ s p d heading adjusted hd ?_ hh ho
    exact not_lt.mp fun hc => absurd ((jsRound_lt_int _ m).mp hc) (not_lt.mpr h)

/-- C5 (witness): spacing 500; an accumulated distance of 499.6 = 2498/5
takes the emit branch (with unrounded overshoot -2/5), while 499.4 = 2497/5
accumulates unrounded. -/
theorem sample_rounded_comparison_unrounded_values_witness :
    sampleStep lineG ((500 : ℤ) : ℚ) ⟨⟨0, 0⟩, 0, [⟨0, 0⟩]⟩ ⟨2498 / 5, 0⟩ =
      .ok { prev := ⟨500, 0⟩, acc := 0, positions := [⟨0, 0⟩] ++ [⟨500, 0⟩] } ∧
    sampleStep lineG ((500 : ℤ) : ℚ) ⟨⟨0, 0⟩, 0, [⟨0, 0⟩]⟩ ⟨2497 / 5, 0⟩ =
      .ok { prev := ⟨2497 / 5, 0⟩, acc := 0 + 2497 / 5, positions := [⟨0, 0⟩] } := by
  constructor
  · exact (sample_rounded_comparison_unrounded_values lineG 500 ⟨⟨0, 0⟩, 0, [⟨0, 0⟩]⟩
      ⟨2498 / 5, 0⟩ (2498 / 5) (by norm_num [lineG])).2 (by norm_num) 0 ⟨500, 0⟩
      (by norm_num [lineG]) (by norm_num [lineG])
  · exact (sample_rounded_comparison_unrounded_values lineG 500 ⟨⟨0, 0⟩, 0, [⟨0, 0⟩]⟩
      ⟨2497 / 5, 0⟩ (2497 / 5) (by norm_num [lineG])).1 (by norm_num)

/-- C6: whenever the promise resolves, the output list is non-empty and its
first element is exactly the first input point. -/
theorem sample_output_starts_with_first (env : GoogleMapsEnv) (first : LatLng)
    (rest out : List LatLng) (meters : ℚ)
    (hok : getPositionsEveryProvidedMeters env (first :: rest) meters =
      .promise (.ok out)) :
    1 ≤ out.length ∧ out.head? = some first := by
  simp only [getPositionsEveryProvidedMeters] at hok
  split at hok
  · cases hok
  · split at hok
    · cases hok
    · split at hok
      · cases hok
      · split at hok
        · cases hr : runSampleLoop env.spherical meters
            { prev := first, acc := 0, positions := [first] } (first :: rest) with
          | error e => rw [hr] at hok; simp [Except.map] at hok
          | ok s' =>
            rw [hr] at hok
            simp only [Except.map, JsOutcome.promise.injEq, Except.ok.injEq] at hok
            obtain ⟨t, ht⟩ :=
              runSampleLoop_positions_extend env.spherical meters (first :: rest) _ _ hr
            rw [← hok, ht]
            simp
        · simp only [JsOutcome.promise.injEq, Except.ok.injEq] at hok
          rw [← hok]
          simp

/-- C6 (witness): on a two-point path the resolved output `[⟨0,0⟩]` is
non-empty and starts with the first input point. -/
theorem sample_output_starts_with_first_witness :
    1 ≤ ([⟨0, 0⟩] : List LatLng).length ∧
    ([⟨0, 0⟩] : List LatLng).head? = some (⟨0, 0⟩ : LatLng) :=
  sample_output_starts_with_first lineEnv ⟨0, 0⟩ [⟨900, 0⟩] [⟨0, 0⟩] 500 (by decide)

/-- Two spherical-geometry records whose operations agree pointwise are
equal. -/
theorem SphericalGeometry.ext_ops (G₁ G₂ : SphericalGeometry)
    (hdist : ∀ a b, G₁.computeDistanceBetween a b = G₂.computeDistanceBetween a b)
    (hhead : ∀ a b, G₁.computeHeading a b = G₂.computeHeading a b)
    (hoff : ∀ q dq hq, G₁.computeOffsetOrigin q dq hq = G₂.computeOffsetOrigin q dq hq) :
    G₁ = G₂ := by
  cases G₁
  cases G₂
  simp only [SphericalGeometry.mk.injEq]
  exact ⟨funext fun a => funext fun b => hdist a b,
    funext fun a => funext fun b => hhead a b,
    funext fun q => funext fun dq => funext fun hq => hoff q dq hq⟩

/-- C7: the sampler is deterministic — two calls on the same path and spacing
in environments whose flags agree and whose geometry operations return
identical results produce identical outcomes; the algorithm keeps no hidden
state and uses no randomness. -/
theorem sample_deterministic (env₁ env₂ : GoogleMapsEnv) (latLngs : List LatLng)
    (meters : ℚ)
    (hg : env₁.hasGoogle = env₂.hasGoogle)
    (hl : env₁.hasGeometry = env₂.hasGeometry)
    (hdist : ∀ a b, env₁.spherical.computeDistanceBetween a b =
      env₂.spherical.computeDistanceBetween a b)
    (hhead : ∀ a b, env₁.spherical.computeHeading a b =
      env₂.spherical.computeHeading a b)
    (hoff : ∀ q dq hq, env₁.spherical.computeOffsetOrigin q dq hq =
      env₂.spherical.computeOffsetOrigin q dq hq) :
    getPositionsEveryProvidedMeters env₁ latLngs meters =
      getPositionsEveryProvidedMeters env₂ latLngs meters := by
  have hs : env₁.spherical = env₂.spherical :=
    SphericalGeometry.ext_ops _ _ hdist hhead hoff
  have henv : env₁ = env₂ := by
    cases env₁
    cases env₂
    simp_all
  rw [henv]

/-- C7 (witness): re-running on the same input and environment yields the
identical outcome. -/
theorem sample_deterministic_witness :
    getPositionsEveryProvidedMeters lineEnv [⟨0, 0⟩, ⟨400, 0⟩, ⟨800, 0⟩] 500 =
      getPositionsEveryProvidedMeters lineEnv [⟨0, 0⟩, ⟨400, 0⟩, ⟨800, 0⟩] 500 :=
  sample_deterministic lineEnv lineEnv [⟨0, 0⟩, ⟨400, 0⟩, ⟨800, 0⟩] 500 rfl rfl
    (fun _ _ => rfl) (fun _ _ => rfl) (fun _ _ _ => rfl)

/-- C8: whenever the promise resolves, the output is the first input point
followed only by synthetic points, each one a value returned by the
`computeOffsetOrigin` offset computation at one of the iterated input
points — no input point reaches the output tail except as an offset result. -/
theorem sample_tail_synthetic (env : GoogleMapsEnv) (first : LatLng)
    (rest out : List LatLng) (meters : ℚ)
    (hok : getPositionsEveryProvidedMeters env (first :: rest) meters =
      .promise (.ok out)) :
    ∃ t : List LatLng, out = first :: t ∧
      ∀ x ∈ t, ∃ (q : LatLng) (dq hq : ℚ), q ∈ first :: rest ∧
        env.spherical.computeOffsetOrigin q dq hq = .ok x := by
  simp only [getPositionsEveryProvidedMeters] at hok
  split at hok
  · cases hok
  · split at hok
    · cases hok
    · split at hok
      · cases hok
      · split at hok
        · cases hr : runSampleLoop env.spherical meters
            { prev := first, acc := 0, positions := [first] } (first :: rest) with
          | error e => rw [hr] at hok; simp [Except.map] at hok
          | ok s' =>
            rw [hr] at hok
            simp only [Except.map, JsOutcome.promise.injEq, Except.ok.injEq] at hok
            obtain ⟨t, ht, hsyn⟩ :=
              runSampleLoop_positions_spec env.spherical meters (first :: rest) _ _ hr
            exact ⟨t, by rw [← hok, ht]; rfl, hsyn⟩
        · simp only [JsOutcome.promise.injEq, Except.ok.injEq] at hok
          exact ⟨[], by rw [← hok], by simp⟩

/-- C8 (witness): in the three-point run the output is the first point
followed by the single synthetic point ⟨500,0⟩, which is an offset-origin
result at the iterated point ⟨800,0⟩. -/
theorem sample_tail_synthetic_witness :
    ∃ t : List LatLng, ([⟨0, 0⟩, ⟨500, 0⟩] : List LatLng) = ⟨0, 0⟩ :: t ∧
      ∀ x ∈ t, ∃ (q : LatLng) (dq hq : ℚ), q ∈ [⟨0, 0⟩, ⟨400, 0⟩, ⟨800, 0⟩] ∧
        lineEnv.spherical.computeOffsetOrigin q dq hq = .ok x :=
  sample_tail_synthetic lineEnv ⟨0, 0⟩ [⟨400, 0⟩, ⟨800, 0⟩] [⟨0, 0⟩, ⟨500, 0⟩] 500
    sample_three_collinear_eval

/-- C9: when the rounded accumulated distance reaches an integer spacing `m`
but the raw value is still below it (`m - 1/2 ≤ acc < m`), the emit branch
runs and hands the offset computation a strictly negative overshoot
`acc - m ∈ [-1/2, 0)`. -/
theorem sample_negative_overshoot (G : SphericalGeometry) (m : ℤ) (s : SamplerState)
    (p : LatLng) (d heading : ℚ) (adjusted : LatLng)
    (hd : G.computeDistanceBetween s.prev p = .ok d)
    (hlow : (m : ℚ) - 1 / 2 ≤ s.acc + d) (hhigh : s.acc + d < (m : ℚ))
    (hh : G.computeHeading s.prev p = .ok heading)
    (ho : G.computeOffsetOrigin p (s.acc + d - (m : ℚ)) heading = .ok adjusted) :
    sampleStep G (m : ℚ) s p =
      .ok { prev := adjusted, acc := 0, positions := s.positions ++ [adjusted] } ∧
    -(1 / 2) ≤ s.acc + d - (m : ℚ) ∧ s.acc + d - (m : ℚ) < 0 := by
  refine ⟨?_, by linarith, by linarith⟩
  refine sampleStep_emit G _ s p d heading adjusted hd ?_ hh ho
  exact not_lt.mp fun hc => absurd ((jsRound_lt_int _ m).mp hc) (not_lt.mpr hlow)

/-- C9 (witness): accumulated 499.7 = 4997/10 with spacing 500 emits with the
negative overshoot -3/10, so the synthetic point ⟨500,0⟩ lies past the
current point ⟨4997/10, 0⟩. -/
theorem sample_negative_overshoot_witness :
    sampleStep lineG ((500 : ℤ) : ℚ) ⟨⟨0, 0⟩, 0, [⟨0, 0⟩]⟩ ⟨4997 / 10, 0⟩ =
      .ok { prev := ⟨500, 0⟩, acc := 0, positions := [⟨0, 0⟩] ++ [⟨500, 0⟩] } ∧
    -(1 / 2) ≤ (0 : ℚ) + 4997 / 10 - ((500 : ℤ) : ℚ) ∧
    (0 : ℚ) + 4997 / 10 - ((500 : ℤ) : ℚ) < 0 :=
  sample_negative_overshoot lineG 500 ⟨⟨0, 0⟩, 0, [⟨0, 0⟩]⟩ ⟨4997 / 10, 0⟩ (4997 / 10) 0
    ⟨500, 0⟩ (by norm_num [lineG]) (by norm_num) (by norm_num) (by norm_num [lineG])
    (by norm_num [lineG])

/-- C10: failures use two channels and never deliver a partial output — a
missing Google Maps object or geometry library throws synchronously (a
`thrown` outcome, before any promise exists), as do the input-validation
guards (C3); and a geometry-operation error inside the loop surfaces only as
a rejected promise carrying the error and no positions. -/
theorem sample_error_channels (env : GoogleMapsEnv) (latLngs : List LatLng) (meters : ℚ) :
    (env.hasGoogle = false →
      getPositionsEveryProvidedMeters env latLngs meters =
        .thrown "This method uses Google maps API and it is not loaded.") ∧
    (env.hasGoogle = true → env.hasGeometry = false →
      getPositionsEveryProvidedMeters env latLngs meters =
        .thrown "The library geometry must be included in your Google maps script.") ∧
    (∀ (first : LatLng) (rest : List LatLng) (e : String),
      latLngs = first :: rest → checkForGeometryLib env = .ok () →
      2 < latLngs.length →
      runSampleLoop env.spherical meters { prev := first, acc := 0, positions := [first] }
        (first :: rest) = .error e →
      getPositionsEveryProvidedMeters env latLngs meters = .promise (.error e)) := by
  refine ⟨?_, ?_, ?_⟩
  · intro h
    simp [getPositionsEveryProvidedMeters, checkForGeometryLib, checkForGoogleMaps, h]
  · intro h1 h2
    simp [getPositionsEveryProvidedMeters, checkForGeometryLib, checkForGoogleMaps, h1, h2]
  · rintro first rest e rfl henv hlen hloop
    rw [getPositions_long env first rest meters henv hlen, hloop]
    rfl

/-- C10 (witness): a missing `window.google` and a missing geometry library
each throw synchronously; an environment whose geometry operations throw
turns that error into a rejected promise on a three-point input. -/
theorem sample_error_channels_witness :
    getPositionsEveryProvidedMeters noGoogleEnv [⟨0, 0⟩, ⟨1, 0⟩, ⟨2, 0⟩] 500 =
      .thrown "This method uses Google maps API and it is not loaded." ∧
    getPositionsEveryProvidedMeters noGeomEnv [⟨0, 0⟩, ⟨1, 0⟩, ⟨2, 0⟩] 500 =
      .thrown "The library geometry must be included in your Google maps script." ∧
    getPositionsEveryProvidedMeters failEnv [⟨0, 0⟩, ⟨1, 0⟩, ⟨2, 0⟩] 500 =
      .promise (.error "geometry failure") :=
  ⟨(sample_error_channels noGoogleEnv [⟨0, 0⟩, ⟨1, 0⟩, ⟨2, 0⟩] 500).1 rfl,
   (sample_error_channels noGeomEnv [⟨0, 0⟩, ⟨1, 0⟩, ⟨2, 0⟩] 500).2.1 rfl rfl,
   (sample_error_channels failEnv [⟨0, 0⟩, ⟨1, 0⟩, ⟨2, 0⟩] 500).2.2 ⟨0, 0⟩
     [⟨1, 0⟩, ⟨2, 0⟩] "geometry failure" rfl rfl (by norm_num) rfl⟩

end SpliceReactHooks
